import Mathlib

/-!
Verification development for the A3D / Electron ComfyUI listener nodes
(`src/a3d_listener.py`, `src/electron_http_listener.py`).

The Python modules are embedded shallowly:

* Python values flowing through the handlers (JSON payloads, stored fields,
  SSE message dictionaries) are modeled by the inductive `PyVal`.
* The process-wide mutable globals (`latest_received_data`, the SSE queue,
  `A3DListenerNode._last_processed_timestamp`, `server_started_flag`) become
  explicit state records; each handler is a pure state-passing function.
* Wall-clock reads (`time.time()`) are passed in as an explicit `now : Rat`
  argument; timestamps are rationals.
* Library calls that are an excluded boundary in the spec (sec. 1) —
  `base64.b64decode`, `PIL.Image.open`, the builtin `float` on exotic forms,
  `json.dumps` serialization — are modeled as `Option`-valued parameters
  (`DecoderEnv`) or left at the value level; an exception raised by a library
  call is modeled as `Option.none`, and the surrounding `try/except` in the
  source maps it to Python `None` / an error response.
* `base64.b64encode` (total on bytes) is implemented concretely.
-/

/-- Python runtime values as they occur in these modules: `None`, strings,
byte strings, numbers, booleans, lists, and dictionaries obtained from
`json.loads` / literals (dictionary keys are unique, as the JSON parser and
dict literals produce). -/
inductive PyVal where
  | none
  | str (s : String)
  | bytes (bs : List Nat)
  | num (q : Rat)
  | bool (b : Bool)
  | list (l : List PyVal)
  | dict (l : List (String × PyVal))

/-- Python truthiness (`bool(v)`) for the values of `PyVal`. -/
def PyVal.truthy : PyVal → Bool
  | .none => false
  | .str s => !(s == "")
  | .bytes bs => !bs.isEmpty
  | .num q => !(q == 0)
  | .bool b => b
  | .list l => !l.isEmpty
  | .dict l => !l.isEmpty

/-- Python `isinstance(v, dict)` dispatch: the entries when `v` is a dict. -/
def asDict : PyVal → Option (List (String × PyVal))
  | .dict l => Option.some l
  | _ => Option.none

/-- Python `d.get(k)`: `some` value when the key is present, `Option.none`
when absent. -/
def dget (d : List (String × PyVal)) (k : String) : Option PyVal :=
  (d.find? (fun p => p.1 == k)).map (fun p => p.2)

/-- Python `d.get(k)` as a value: a missing key yields Python `None`. -/
def dgetD (d : List (String × PyVal)) (k : String) : PyVal :=
  (dget d k).getD .none

/-- Python `d.pop(k, None)`: removes the key (keys are unique). -/
def dpop (d : List (String × PyVal)) (k : String) : List (String × PyVal) :=
  d.filter (fun p => !(p.1 == k))

/-- The standard base64 alphabet used by `base64.b64encode`. -/
def b64chars : List Char :=
  "ABCDEFGHIJKLMNOPQRSTUVWXYZabcdefghijklmnopqrstuvwxyz0123456789+/".toList

/-- Character of the base64 alphabet at index `n` (< 64). -/
def b64charAt (n : Nat) : Char := b64chars.getD n 'A'

/-- Encoding loop of `base64.b64encode`: 3 input bytes become 4 alphabet
characters; a final group of 1 or 2 bytes is padded with `=`. -/
def b64encodeList : List Nat → List Char
  | [] => []
  | [a] =>
    let a := a % 256
    [b64charAt (a / 4), b64charAt ((a % 4) * 16), '=', '=']
  | [a, b] =>
    let a := a % 256
    let b := b % 256
    [b64charAt (a / 4), b64charAt ((a % 4) * 16 + b / 16),
     b64charAt ((b % 16) * 4), '=']
  | a :: b :: c :: rest =>
    let n := (a % 256) * 65536 + (b % 256) * 256 + (c % 256)
    b64charAt (n / 262144) :: b64charAt ((n / 4096) % 64) ::
      b64charAt ((n / 64) % 64) :: b64charAt (n % 64) :: b64encodeList rest

/-- Python `base64.b64encode(body).decode('utf-8')`. -/
def b64encode (bs : List Nat) : String := String.mk (b64encodeList bs)

/-- Python `s.startswith(p)` (character-list form of `String.startsWith`,
kept kernel-computable). -/
def strStartsWith (s p : String) : Bool := p.toList.isPrefixOf s.toList

/-- Shared code of both ingestion handlers for a non-JSON body
(`a3d_listener.py` lines 124-127, `electron_http_listener.py` lines 201-204):
base64-encode the raw body and, when the content type is `image/...`, prepend
a data-URI prefix. -/
def encodeBodyB64 (contentType : String) (body : List Nat) : String :=
  let enc := b64encode body
  if strStartsWith contentType "image/" then
    "data:" ++ contentType ++ ";base64," ++ enc
  else enc

/-! ## PIL image model

PIL images as the decoders see them after `Image.open`: pixel grids
(rows of columns of channel lists, channel arity fixed by the mode) for the
modes the sources branch on — `RGBA`, `L` (grayscale), `RGB` — plus a
constructor for every other mode, carrying the result of the library's
`convert('RGB')` for it (that conversion is library behavior, an excluded
boundary). -/

/-- Pixel grid: rows of columns of per-channel byte values. -/
abbrev Rows := List (List (List Nat))

/-- A loaded PIL image, by mode. -/
inductive PILImage where
  | rgba (px : Rows)
  | l (px : Rows)
  | rgb (px : Rows)
  | other (rgbConverted : Rows)

/-- PIL's exact `MULDIV255` macro, used by `Image.paste` with a mask:
`MULDIV255(a, b) = ((a*b + 128) + ((a*b + 128) >> 8)) >> 8`, an exact
rounding of `a*b/255` for byte inputs. -/
def muldiv255 (a b : Nat) : Nat :=
  (a * b + 128 + (a * b + 128) / 256) / 256

/-- Effect on one RGBA pixel of `a3d_listener.py` lines 304-308: paste the
image onto a black `RGB` background with its alpha band as mask, i.e. blend
each color channel with black weighted by alpha. -/
def flattenRGBA (p : List Nat) : List Nat :=
  match p with
  | [r, g, b, a] => [muldiv255 r a, muldiv255 g a, muldiv255 b a]
  | _ => p

/-- PIL `convert('RGB')` on one `L` (grayscale) pixel: the single channel is
replicated to three. -/
def lToRGB (p : List Nat) : List Nat :=
  match p with
  | [v] => [v, v, v]
  | _ => p

/-- PIL `convert('RGB')` on one `RGBA` pixel: the alpha channel is dropped;
the color channels pass through unchanged. -/
def dropAlpha (p : List Nat) : List Nat := p.take 3

/-- Mode normalization of `a3d_listener.py` lines 303-314: `RGBA` is
flattened onto black using alpha as mask, `L` is converted to `RGB`
(channel replication), `RGB` passes through, and any other mode goes through
the library's `convert('RGB')`. -/
def a3dConvertRGB : PILImage → Rows
  | .rgba px => px.map (fun row => row.map flattenRGBA)
  | .l px => px.map (fun row => row.map lToRGB)
  | .rgb px => px
  | .other rgbConverted => rgbConverted

/-- Mode normalization of `electron_http_listener.py` line 344: a single
`convert('RGB')` — `RGBA` loses its alpha channel (no blending), `L` is
replicated, `RGB` passes through, other modes go through the library
conversion. -/
def electronConvertRGB : PILImage → Rows
  | .rgba px => px.map (fun row => row.map dropAlpha)
  | .l px => px.map (fun row => row.map lToRGB)
  | .rgb px => px
  | .other rgbConverted => rgbConverted

/-- Tensors of the a3d variant: float values (modeled exactly in `Rat`),
batch × height × width × channel nesting. -/
abbrev TensorQ := List (List (List (List Rat)))

/-- Tensors of the electron variant: `uint8` values, batch × height × width
× channel nesting. -/
abbrev TensorN := List (List (List (List Nat)))

/-- Conversion of `a3d_listener.py` lines 317-320: normalize bytes to
`[0, 1]` by dividing by 255 (modeled exactly in `Rat`) and add the batch
dimension (`unsqueeze(0)`). -/
def toTensorQ (r : Rows) : TensorQ :=
  [r.map (fun row => row.map (fun p => p.map (fun v : Nat => mkRat v 255)))]

/-- Shape predicate for 4-dimensional nested-list tensors. -/
def tensorShape {α : Type} (t : List (List (List (List α))))
    (B H W C : Nat) : Prop :=
  t.length = B ∧ ∀ img ∈ t, img.length = H ∧
    ∀ row ∈ img, row.length = W ∧ ∀ p ∈ row, p.length = C

instance {α : Type} (t : List (List (List (List α)))) (B H W C : Nat) :
    Decidable (tensorShape t B H W C) := by
  unfold tensorShape; infer_instance

/-- Shape predicate for pixel grids. -/
def rowsShape (r : Rows) (H W C : Nat) : Prop :=
  r.length = H ∧ ∀ row ∈ r, row.length = W ∧ ∀ p ∈ row, p.length = C

/-- Well-formedness of a loaded PIL image of size `H × W`: the channel
arity matches the mode (4 for `RGBA`, 1 for `L`, 3 for `RGB` and for the
already-converted other modes). -/
def PILImage.wf : PILImage → Nat → Nat → Prop
  | .rgba px, H, W => rowsShape px H W 4
  | .l px, H, W => rowsShape px H W 1
  | .rgb px, H, W => rowsShape px H W 3
  | .other rgbConverted, H, W => rowsShape rgbConverted H W 3

/-! ## Decoders -/

/-- Library boundary of the decoders (spec sec. 1 excludes these):
`base64.b64decode` on the stripped string and `PIL.Image.open` on the decoded
bytes. A raised exception is modeled as `Option.none`. -/
structure DecoderEnv where
  b64decode : String → Option (List Nat)
  imageOpen : List Nat → Option PILImage

/-- Python `s.split("base64,")` over the character list: pieces between
occurrences of the separator, scanned left to right. -/
def splitB64Aux : List Char → List Char → List (List Char)
  | [], acc => [acc.reverse]
  | 'b' :: 'a' :: 's' :: 'e' :: '6' :: '4' :: ',' :: rest, acc =>
    acc.reverse :: splitB64Aux rest []
  | c :: rest, acc => splitB64Aux rest (c :: acc)

/-- Data-URI stripping of both decoders (`a3d_listener.py` lines 297-298,
`electron_http_listener.py` lines 340-341): when `"base64,"` occurs in the
string, keep piece 1 of the Python `split` on that separator. -/
def stripDataURI (s : String) : String :=
  let parts := splitB64Aux s.toList []
  if parts.length ≥ 2 then String.mk (parts.getD 1 []) else s

/-- Embedding of `base64_to_tensor` in `a3d_listener.py` lines 292-325:
reject a falsy or non-string input, strip a data-URI prefix, base64-decode,
open the image, normalize the mode, scale to `[0, 1]` floats and add the
batch dimension. Every library exception is caught by the source's
`try/except` and becomes `Option.none`; the function is total, so no
exception escapes its boundary. -/
def base64_to_tensor_a3d (env : DecoderEnv) (v : PyVal) : Option TensorQ :=
  match v with
  | .str s =>
    if s == "" then Option.none
    else
      match env.b64decode (stripDataURI s) with
      | Option.none => Option.none
      | Option.some bs =>
        match env.imageOpen bs with
        | Option.none => Option.none
        | Option.some img => Option.some (toTensorQ (a3dConvertRGB img))
  | _ => Option.none

/-- Embedding of `base64_to_tensor` in `electron_http_listener.py` lines
335-357: same guard and prefix stripping, then a single `convert('RGB')`,
`uint8` values, a shape test (`ndim == 3 and shape[2] == 3`), and the batch
dimension. Total: no exception escapes. -/
def base64_to_tensor_electron (env : DecoderEnv) (v : PyVal) :
    Option TensorN :=
  match v with
  | .str s =>
    if s == "" then Option.none
    else
      match env.b64decode (stripDataURI s) with
      | Option.none => Option.none
      | Option.some bs =>
        match env.imageOpen bs with
        | Option.none => Option.none
        | Option.some img =>
          let rows := electronConvertRGB img
          if rows.all (fun row => row.all (fun p => p.length == 3)) then
            Option.some [rows]
          else Option.none
  | _ => Option.none

/-- Placeholder of `a3d_listener.py` line 377:
`torch.zeros((1, 64, 64, 3), dtype=torch.float32)`. -/
def a3dEmptyImage : TensorQ :=
  [List.replicate 64 (List.replicate 64 (List.replicate 3 (0 : Rat)))]

/-- Placeholder of `electron_http_listener.py` line 401:
`torch.zeros((1, 64, 64, 3), dtype=torch.uint8)`. -/
def electronEmptyImage : TensorN :=
  [List.replicate 64 (List.replicate 64 (List.replicate 3 (0 : Nat)))]

/-! ## Python numeric coercion (seed handling) -/

/-- Accumulate a decimal digit string into a natural number. -/
def parseDigitsAux : List Char → Nat → Option Nat
  | [], acc => Option.some acc
  | c :: cs, acc =>
    if c.isDigit then parseDigitsAux cs (acc * 10 + (c.toNat - 48))
    else Option.none

/-- Python builtin `float(s)` modeled on plain decimal string literals:
an optional sign, then digits with an optional fractional part (at least one
digit overall). Exponent forms, surrounding whitespace, underscores and
`inf`/`nan` are outside the model; `float` is a library boundary and the
handlers only rely on it for such literals. Parse failure models the raised
`ValueError`. -/
def pyFloatOfString (s : String) : Option Rat :=
  let cs := s.toList
  let signAndRest : Int × List Char :=
    match cs with
    | '-' :: r => (-1, r)
    | '+' :: r => (1, r)
    | r => (1, r)
  let sign := signAndRest.1
  let body := signAndRest.2
  let intPart := body.takeWhile (fun c => c.isDigit)
  let rest := body.dropWhile (fun c => c.isDigit)
  match rest with
  | [] =>
    match parseDigitsAux intPart 0 with
    | Option.some n =>
      if intPart.isEmpty then Option.none
      else Option.some (mkRat (sign * n) 1)
    | Option.none => Option.none
  | '.' :: frac =>
    if frac.all (fun c => c.isDigit) ∧ ¬(intPart.isEmpty ∧ frac.isEmpty) then
      match parseDigitsAux intPart 0, parseDigitsAux frac 0 with
      | Option.some n, Option.some f =>
        Option.some (mkRat (sign * (n * 10 ^ frac.length + f))
          (10 ^ frac.length))
      | _, _ => Option.none
    else Option.none
  | _ => Option.none

/-- Python builtin `float(v)` on the values that can reach the seed
conversion: numbers and booleans convert, decimal strings parse, everything
else raises (`Option.none`). -/
def pyFloat : PyVal → Option Rat
  | .num q => Option.some q
  | .bool b => Option.some (if b then 1 else 0)
  | .str s => pyFloatOfString s
  | _ => Option.none

/-- Python `int(x)` on a float: truncation toward zero. -/
def ratTrunc (q : Rat) : Int := Int.tdiv q.num (q.den : Int)

/-- The test `seed_value is None or seed_value == ""` of `a3d_listener.py`
line 418 (equality with `""` only holds for the empty string itself). -/
def isNoneOrEmptyStr : PyVal → Bool
  | .none => true
  | .str s => s == ""
  | _ => false

/-- Seed conversion of `a3d_listener.py` lines 416-424: `None` and the empty
string become 0; otherwise `int(float(seed))` (float first, truncate toward
zero), with any `ValueError`/`TypeError` caught and defaulted to 0. -/
def a3d_seed_to_int (v : PyVal) : Int :=
  if isNoneOrEmptyStr v then 0
  else
    match pyFloat v with
    | Option.some q => ratTrunc q
    | Option.none => 0

/-! ## a3d variant: state and handlers (`src/a3d_listener.py`) -/

/-- SSE broadcast message: the Python dict queued on `sse_message_queue`
(its later `data: <json>\n\n` framing is boundary serialization). -/
abbrev SseMsg := List (String × PyVal)

/-- The global `latest_received_data` dict of `a3d_listener.py` lines 18-28
(initially every field `None` and timestamp 0). -/
structure A3DStore where
  payload : PyVal
  timestamp : Rat
  color_image_base64 : PyVal
  depth_image_base64 : PyVal
  openpose_image_base64 : PyVal
  prompt : PyVal
  negative_prompt : PyVal
  seed : PyVal

/-- Whole mutable state of the a3d module: the latest-value store, the SSE
message queue, and the class attribute
`A3DListenerNode._last_processed_timestamp` (line 329). -/
structure A3DState where
  store : A3DStore
  sseQueue : List SseMsg
  lastProcessed : Rat

/-- Initial `latest_received_data` of `a3d_listener.py` lines 18-28. -/
def a3dInitStore : A3DStore :=
  { payload := .none, timestamp := 0, color_image_base64 := .none,
    depth_image_base64 := .none, openpose_image_base64 := .none,
    prompt := .none, negative_prompt := .none, seed := .none }

/-- Initial module state (empty queue, `_last_processed_timestamp = 0`). -/
def a3dInitState : A3DState :=
  { store := a3dInitStore, sseQueue := [], lastProcessed := 0 }

/-- One inbound request to `/a3d_data` as the handler branches on it:
a JSON body that parsed (constructor carries the parse result), a JSON body
on which `request.json()` raised, or a non-JSON body handled as binary. -/
inductive A3DRequest where
  | json (parsed : PyVal)
  | jsonParseError
  | binary (contentType : String) (body : List Nat)

/-- Embedding of `receive_data` in `a3d_listener.py` lines 59-156, as a
function of the request, the wall-clock reading `now` (`time.time()` at line
86/130) and the module state, returning the new state and the HTTP status.

JSON branch (lines 70-116): extract the three image fields and the metadata
fields; a non-dict body or non-dict metadata raises `AttributeError` at the
`.get` calls, reaching the outer handler (line 150) — status 500, state
untouched. On success all eight store fields are replaced under `data_lock`,
then one `new_images` message is queued, then status 200.

`request.json()` raising (malformed JSON) also reaches the outer handler:
status 500, state untouched.

Binary branch (lines 118-148): base64-encode the body (total on bytes, so
the inner `except` at line 145 is unreachable); replace only `payload`,
`timestamp` and `color_image_base64` under the lock — the other five fields
keep their previous values; queue one `new_binary_data` message carrying
only the type, timestamp and body size; status 200. -/
def a3d_receive (req : A3DRequest) (now : Rat) (s : A3DState) :
    A3DState × Nat :=
  match req with
  | .jsonParseError => (s, 500)
  | .json data =>
    match asDict data with
    | Option.none => (s, 500)
    | Option.some d =>
      let color := dgetD d "color_image_base64"
      let depth := dgetD d "depth_image_base64"
      let openpose := dgetD d "openpose_image_base64"
      let metadata := (dget d "metadata").getD (.dict [])
      match asDict metadata with
      | Option.none => (s, 500)
      | Option.some m =>
        let prompt := dgetD m "prompt"
        let negative := dgetD m "negative_prompt"
        let seed := dgetD m "seed"
        let store : A3DStore :=
          { payload := data, timestamp := now, color_image_base64 := color,
            depth_image_base64 := depth, openpose_image_base64 := openpose,
            prompt := prompt, negative_prompt := negative, seed := seed }
        let msg : SseMsg :=
          [("type", .str "new_images"), ("timestamp", .num now),
           ("color_image_base64", color), ("depth_image_base64", depth),
           ("openpose_image_base64", openpose), ("prompt", prompt),
           ("negative_prompt", negative), ("seed", seed)]
        ({ s with store := store, sseQueue := s.sseQueue ++ [msg] }, 200)
  | .binary contentType body =>
    let enc := encodeBodyB64 contentType body
    let store : A3DStore :=
      { s.store with
        payload := .dict [("type", .str "binary_data"),
                          ("content_type", .str contentType)],
        timestamp := now, color_image_base64 := .str enc }
    let msg : SseMsg :=
      [("type", .str "new_binary_data"), ("timestamp", .num now),
       ("size", .num (body.length : Nat))]
    ({ s with store := store, sseQueue := s.sseQueue ++ [msg] }, 200)

/-- Embedding of `A3DListenerNode.IS_CHANGED` (lines 345-362): read the
store timestamp under the lock and return it when strictly newer than the
class-level `_last_processed_timestamp`, else return the latter; no state is
mutated. -/
def a3d_IS_CHANGED (s : A3DState) : Rat :=
  if s.lastProcessed < s.store.timestamp then s.store.timestamp
  else s.lastProcessed

/-- Outputs of `A3DListenerNode.get_latest_data` (line 429). -/
structure A3DOutput where
  color : TensorQ
  depth : TensorQ
  openpose : TensorQ
  prompt : PyVal
  negative_prompt : PyVal
  seed : Int

/-- Embedding of `A3DListenerNode.get_latest_data` (lines 370-429): under
`data_lock`, snapshot the store fields and set `_last_processed_timestamp`
to the snapshot's timestamp; outside the lock decode the three images
(falling back to the 1 × 64 × 64 × 3 zero placeholder), map falsy
prompt/negative-prompt to the empty string (Python `x or ""`), and coerce
the seed via `a3d_seed_to_int`. The latest-value store and queue are left
untouched. -/
def a3d_get_latest_data (env : DecoderEnv) (s : A3DState) :
    A3DState × A3DOutput :=
  let ts := s.store.timestamp
  let color :=
    (base64_to_tensor_a3d env s.store.color_image_base64).getD a3dEmptyImage
  let depth :=
    (base64_to_tensor_a3d env s.store.depth_image_base64).getD a3dEmptyImage
  let openpose :=
    (base64_to_tensor_a3d env s.store.openpose_image_base64).getD a3dEmptyImage
  let prompt := if s.store.prompt.truthy then s.store.prompt else .str ""
  let negative :=
    if s.store.negative_prompt.truthy then s.store.negative_prompt
    else .str ""
  ({ s with lastProcessed := ts },
   { color := color, depth := depth, openpose := openpose, prompt := prompt,
     negative_prompt := negative, seed := a3d_seed_to_int s.store.seed })

/-- Run a sequence of ingestion requests (each with its `time.time()`
reading) against the a3d module state. -/
def a3d_run (ops : List (A3DRequest × Rat)) (s : A3DState) : A3DState :=
  ops.foldl (fun st p => (a3d_receive p.1 p.2 st).1) s

/-! ## Electron variant: state and handlers (`src/electron_http_listener.py`) -/

/-- The global `latest_received_data` dict of `electron_http_listener.py`
lines 20-27. -/
structure ElectronStore where
  payload : PyVal
  timestamp : Rat
  image_base64 : PyVal
  color_image_base64 : PyVal
  depth_image_base64 : PyVal
  openpose_image_base64 : PyVal

/-- Whole mutable state of the electron module: store, SSE queue, and the
`server_started_flag` global (line 31). -/
structure ElectronState where
  store : ElectronStore
  sseQueue : List SseMsg
  serverStarted : Bool

/-- Initial `latest_received_data` of `electron_http_listener.py` lines
20-27. -/
def electronInitStore : ElectronStore :=
  { payload := .none, timestamp := 0, image_base64 := .none,
    color_image_base64 := .none, depth_image_base64 := .none,
    openpose_image_base64 := .none }

/-- Initial electron module state with a given server-started flag. -/
def electronInitState (started : Bool) : ElectronState :=
  { store := electronInitStore, sseQueue := [], serverStarted := started }

/-- One inbound POST as `do_POST` branches on it: empty body
(`Content-Length: 0`), a JSON body that parsed, a JSON body on which
`json.loads` raised `JSONDecodeError`, or a non-JSON body. -/
inductive ElectronRequest where
  | emptyBody
  | json (parsed : PyVal)
  | jsonParseError
  | binary (contentType : String) (body : List Nat)

/-- Embedding of `SimpleHTTPRequestHandler.do_POST`
(`electron_http_listener.py` lines 153-261), as a function of the request,
the `time.time()` reading at line 178 and the module state, returning the
new state and the HTTP status sent in the `finally` block.

Empty body (lines 171-175): status 400, state untouched. A
`json.JSONDecodeError` from line 183 (lines 242-245): status 400, state
untouched. A parsed JSON body: the four image fields are extracted only
when the parse result is a dict (line 187), else they stay `None`; then all
six store fields are replaced under `data_lock` (lines 213-221), one
`new_images` message carrying the same fields plus the payload is queued
(lines 226-235), status 200. A non-JSON body (lines 197-209): the body is
base64-encoded as the main image (total on bytes, so the inner `except` at
line 207 is unreachable), the three named image fields become `None`, the
full store is replaced, the message is queued, status 200. -/
def electron_do_POST (req : ElectronRequest) (now : Rat) (s : ElectronState) :
    ElectronState × Nat :=
  match req with
  | .emptyBody => (s, 400)
  | .jsonParseError => (s, 400)
  | .json data =>
    let main :=
      match asDict data with
      | Option.some d => dgetD d "image_base64"
      | Option.none => .none
    let color :=
      match asDict data with
      | Option.some d => dgetD d "color_image_base64"
      | Option.none => .none
    let depth :=
      match asDict data with
      | Option.some d => dgetD d "depth_image_base64"
      | Option.none => .none
    let openpose :=
      match asDict data with
      | Option.some d => dgetD d "openpose_image_base64"
      | Option.none => .none
    let store : ElectronStore :=
      { payload := data, timestamp := now, image_base64 := main,
        color_image_base64 := color, depth_image_base64 := depth,
        openpose_image_base64 := openpose }
    let msg : SseMsg :=
      [("type", .str "new_images"), ("timestamp", .num now),
       ("image_base64", main), ("color_image_base64", color),
       ("depth_image_base64", depth), ("openpose_image_base64", openpose),
       ("payload", data)]
    ({ s with store := store, sseQueue := s.sseQueue ++ [msg] }, 200)
  | .binary contentType body =>
    let enc := PyVal.str (encodeBodyB64 contentType body)
    let payload : PyVal :=
      .dict [("type", .str "binary_data"),
             ("content_type", .str contentType)]
    let store : ElectronStore :=
      { payload := payload, timestamp := now, image_base64 := enc,
        color_image_base64 := .none, depth_image_base64 := .none,
        openpose_image_base64 := .none }
    let msg : SseMsg :=
      [("type", .str "new_images"), ("timestamp", .num now),
       ("image_base64", enc), ("color_image_base64", .none),
       ("depth_image_base64", .none), ("openpose_image_base64", .none),
       ("payload", payload)]
    ({ s with store := store, sseQueue := s.sseQueue ++ [msg] }, 200)

/-- Outputs of `ElectronHttpListenerNode.get_latest_data` (line 454):
the payload value whose `json.dumps` serialization is returned (the
serialization itself is boundary), the timestamp, and four tensors. -/
structure ElectronOutput where
  received_data : PyVal
  timestamp : Rat
  image : TensorN
  color : TensorN
  depth : TensorN
  openpose : TensorN

/-- Embedding of `ElectronHttpListenerNode.get_latest_data`
(`electron_http_listener.py` lines 397-454). When the server never started,
an error payload with four placeholder images is returned and the state is
untouched (lines 403-406). Otherwise the store fields are snapshotted under
`data_lock`, the four images decoded (placeholder on failure), and the
payload prepared for JSON output: `payload_to_return` is the stored dict
itself when the payload is a dict (line 444 binds the same object, no
copy), and the four `pop` calls at lines 447-450 therefore remove the image
keys from the dict held in `latest_received_data` — the new state carries
the popped payload. A `None` payload is replaced by a fresh empty dict
(store untouched); a non-dict payload is returned as is. The error detail
string uses the default port 8199 (the port is an environment-configurable
boundary setting, spec sec. 6). -/
def electron_get_latest_data (env : DecoderEnv) (s : ElectronState) :
    ElectronState × ElectronOutput :=
  if s.serverStarted = false then
    (s, { received_data :=
            .dict [("error", .str "HTTP server not running"),
                   ("details", .str "Check port 8199.")],
          timestamp := 0, image := electronEmptyImage,
          color := electronEmptyImage, depth := electronEmptyImage,
          openpose := electronEmptyImage })
  else
    let main :=
      (base64_to_tensor_electron env s.store.image_base64).getD
        electronEmptyImage
    let color :=
      (base64_to_tensor_electron env s.store.color_image_base64).getD
        electronEmptyImage
    let depth :=
      (base64_to_tensor_electron env s.store.depth_image_base64).getD
        electronEmptyImage
    let openpose :=
      (base64_to_tensor_electron env s.store.openpose_image_base64).getD
        electronEmptyImage
    let retAndStored : PyVal × PyVal :=
      match s.store.payload with
      | .none => (.dict [], .none)
      | .dict d =>
        let popped :=
          dpop (dpop (dpop (dpop d "image_base64") "color_image_base64")
                 "depth_image_base64") "openpose_image_base64"
        (.dict popped, .dict popped)
      | v => (v, v)
    ({ s with store := { s.store with payload := retAndStored.2 } },
     { received_data := retAndStored.1, timestamp := s.store.timestamp,
       image := main, color := color, depth := depth,
       openpose := openpose })

/-- Run a sequence of ingestion requests against the electron module
state. -/
def electron_run (ops : List (ElectronRequest × Rat)) (s : ElectronState) :
    ElectronState :=
  ops.foldl (fun st p => (electron_do_POST p.1 p.2 st).1) s

/-! ## Broadcast (SSE fan-out)

`broadcast_sse_message` exists in both modules (`a3d_listener.py` lines
205-239, `electron_http_listener.py` lines 44-73) with the same structure:
format the message, iterate over the registered clients attempting one
write per client with every exception caught (a failed write marks the
client disconnected), then remove the marked clients before returning. A
subscriber sink is modeled by whether its writes fail (`broken`) plus the
list of messages it received; `json.dumps`-framing of the message is
boundary serialization, so delivery is recorded as the message dict
itself. -/

/-- One registered SSE client: identity (`id(response)` / the `wfile`
handle), whether every write to its transport raises, and the messages
written to it so far. -/
structure SseClient where
  cid : Nat
  broken : Bool
  received : List SseMsg

/-- Write attempt of the broadcast loop on one client: a working sink
appends the message; a broken sink raises (caught by the per-client
`except`), leaving the client unwritten. -/
def sseWrite (msg : SseMsg) (c : SseClient) : SseClient :=
  if c.broken then c else { c with received := c.received ++ [msg] }

/-- Embedding of `broadcast_sse_message` in `a3d_listener.py` lines
205-239: under `sse_clients_lock`, return unchanged when no client is
connected (lines 216-218); otherwise attempt the write on every client,
collect the identities whose write raised (lines 221-231), and delete those
from the registry before returning (lines 234-237). Total — no exception
escapes `publish`. -/
def a3d_broadcast (clients : List SseClient) (msg : SseMsg) :
    List SseClient :=
  if clients.isEmpty then clients
  else
    let written := clients.map (sseWrite msg)
    let disconnected :=
      (clients.filter (fun c => c.broken)).map (fun c => c.cid)
    written.filter (fun c => decide (c.cid ∉ disconnected))

/-- Embedding of `broadcast_sse_message` in `electron_http_listener.py`
lines 44-73: attempt the write on every registered client catching every
exception, collect the failed sinks, then `discard` them from the registry.
Total — no exception escapes. -/
def electron_broadcast (clients : List SseClient) (msg : SseMsg) :
    List SseClient :=
  let written := clients.map (sseWrite msg)
  let disconnected :=
    (clients.filter (fun c => c.broken)).map (fun c => c.cid)
  written.filter (fun c => decide (c.cid ∉ disconnected))

/-! ## Claim C1 -/

/-- JSON ingestion body used in the C1 trace: three image fields and full
metadata. -/
def c1JsonBody : PyVal :=
  .dict [("color_image_base64", .str "C64"),
         ("depth_image_base64", .str "D64"),
         ("openpose_image_base64", .str "O64"),
         ("metadata", .dict [("prompt", .str "hello"),
                             ("negative_prompt", .str "dark"),
                             ("seed", .num 7)])]

/-- State after a JSON ingestion at time 1 followed by a raw-binary
ingestion at time 2 (a3d variant). -/
def c1State : A3DState :=
  (a3d_receive (.binary "image/png" [1, 2, 3]) 2
    ((a3d_receive (.json c1JsonBody) 1 a3dInitState).1)).1

/-- C1 counterexample: after a JSON ingestion then a raw-binary ingestion,
the a3d latest-value store is exactly the mixed record the claim rules out —
the timestamp and color image of the binary replace combined with the
depth/openpose images, prompt, negative prompt and seed of the earlier JSON
replace. -/
theorem claim_C1_counterexample :
    c1State.store.timestamp = 2 ∧
    c1State.store.color_image_base64 = .str "data:image/png;base64,AQID" ∧
    c1State.store.depth_image_base64 = .str "D64" ∧
    c1State.store.openpose_image_base64 = .str "O64" ∧
    c1State.store.prompt = .str "hello" ∧
    c1State.store.negative_prompt = .str "dark" ∧
    c1State.store.seed = .num 7 :=
  ⟨rfl, rfl, rfl, rfl, rfl, rfl, rfl⟩

/-- C1 amended: each ingestion updates the store in a single critical
section, and in the electron variant (every path) and the a3d JSON path the
whole stored record is a function of that request and its timestamp alone —
no field of an earlier replace survives; but the a3d raw-binary path
replaces only the payload, timestamp and color image, keeping the remaining
five fields of the previous record. -/
theorem claim_C1_theorem :
    (∀ req now s₁ s₂, (electron_do_POST req now s₁).2 = 200 →
        (electron_do_POST req now s₁).1.store =
          (electron_do_POST req now s₂).1.store)
    ∧ (∀ d now s₁ s₂, (a3d_receive (.json d) now s₁).2 = 200 →
        (a3d_receive (.json d) now s₁).1.store =
          (a3d_receive (.json d) now s₂).1.store)
    ∧ (∀ ct body now s,
        (a3d_receive (.binary ct body) now s).1.store =
          { s.store with
            payload := .dict [("type", .str "binary_data"),
                              ("content_type", .str ct)],
            timestamp := now,
            color_image_base64 := .str (encodeBodyB64 ct body) }) := by
  refine ⟨?_, ?_, ?_⟩
  · intro req now s₁ s₂ h
    cases req with
    | emptyBody =>
      have h400 : (400 : Nat) = 200 := h
      exact absurd h400 (by decide)
    | jsonParseError =>
      have h400 : (400 : Nat) = 200 := h
      exact absurd h400 (by decide)
    | json d => rfl
    | binary ct body => rfl
  · intro d now s₁ s₂ h
    unfold a3d_receive at h ⊢
    dsimp only at h ⊢
    cases hd : asDict d with
    | none =>
      rw [hd] at h
      have h500 : (500 : Nat) = 200 := h
      exact absurd h500 (by decide)
    | some l =>
      rw [hd] at h
      dsimp only at h ⊢
      cases hm : asDict ((dget l "metadata").getD (.dict [])) with
      | none =>
        rw [hm] at h
        have h500 : (500 : Nat) = 200 := h
        exact absurd h500 (by decide)
      | some m => rfl
  · intro ct body now s
    rfl

/-- C1 witness: the electron full-replace conclusion at a concrete
request, time and two different prior states. -/
theorem claim_C1_witness :
    (electron_do_POST (.json (.dict [])) 3 (electronInitState true)).1.store
      = (electron_do_POST (.json (.dict [])) 3
          (electron_do_POST (.binary "image/png" [1]) 1
            (electronInitState true)).1).1.store :=
  claim_C1_theorem.1 (.json (.dict [])) 3 (electronInitState true)
    (electron_do_POST (.binary "image/png" [1]) 1 (electronInitState true)).1
    rfl

/-! ## Claim C2 -/

/-- Decoder environment in which every library call fails (sufficient for
states whose image fields are `None`). -/
def trivialDecoderEnv : DecoderEnv :=
  { b64decode := fun _ => Option.none, imageOpen := fun _ => Option.none }

/-- Electron module state whose stored payload dict still carries an
`image_base64` key next to another entry. -/
def c2State : ElectronState :=
  { store :=
      { payload := .dict [("image_base64", .str "x"), ("seed", .num 37)],
        timestamp := 5, image_base64 := .str "x",
        color_image_base64 := .none, depth_image_base64 := .none,
        openpose_image_base64 := .none },
    sseQueue := [], serverStarted := true }

/-- C2: the electron `get_latest_data` mutates the latest-value store — the
`pop` calls at `electron_http_listener.py` lines 447-450 act on the stored
payload dict itself (bound, not copied, at line 444), so after the call the
store's payload has lost its `image_base64` entry. -/
theorem claim_C2_theorem :
    (electron_get_latest_data trivialDecoderEnv c2State).1.store.payload
        = .dict [("seed", .num 37)]
    ∧ (electron_get_latest_data trivialDecoderEnv c2State).1.store.payload
        ≠ c2State.store.payload := by
  refine ⟨rfl, ?_⟩
  intro h
  have hlen : (1 : Nat) = 2 :=
    congrArg
      (fun v => match v with | PyVal.dict entries => entries.length | _ => 0) h
  exact absurd hlen (by decide)

/-! ## Claim C3 -/

/-- C3 counterexample: in the a3d variant a malformed JSON body is answered
with HTTP 500, not 400; and an empty body under a non-JSON content type is
not treated as a parse failure at all — it is accepted (200) and stored as
an empty color image, with a broadcast message queued. -/
theorem claim_C3_counterexample :
    (a3d_receive .jsonParseError 1 a3dInitState).2 = 500
    ∧ ¬((a3d_receive .jsonParseError 1 a3dInitState).2 = 400)
    ∧ (a3d_receive (.binary "text/plain" []) 1 a3dInitState).2 = 200
    ∧ (a3d_receive (.binary "text/plain" []) 1
        a3dInitState).1.store.color_image_base64 = .str ""
    ∧ ¬((a3d_receive (.binary "text/plain" []) 1 a3dInitState).1.sseQueue
        = []) := by
  refine ⟨rfl, by decide, rfl, rfl, ?_⟩
  exact List.cons_ne_nil _ _

/-- C3 amended: a parse failure performs no replace and no publish and
leaves every later request unaffected, but the status and scope differ by
variant — the electron variant answers 400 for an empty or malformed JSON
body, while the a3d variant answers 500 for a malformed JSON body, and it
accepts an empty body under a non-JSON content type (status 200 with a
replace, storing the empty string as color image). -/
theorem claim_C3_theorem :
    (∀ now s, electron_do_POST .emptyBody now s = (s, 400))
    ∧ (∀ now s, electron_do_POST .jsonParseError now s = (s, 400))
    ∧ (∀ now s, a3d_receive .jsonParseError now s = (s, 500))
    ∧ (∀ req now now2 s,
        a3d_receive req now ((a3d_receive .jsonParseError now2 s).1)
          = a3d_receive req now s)
    ∧ (∀ req now now2 s,
        electron_do_POST req now
            ((electron_do_POST .jsonParseError now2 s).1)
          = electron_do_POST req now s)
    ∧ (∀ req now now2 s,
        electron_do_POST req now ((electron_do_POST .emptyBody now2 s).1)
          = electron_do_POST req now s)
    ∧ (∀ ct now s, (a3d_receive (.binary ct []) now s).2 = 200
        ∧ (a3d_receive (.binary ct []) now s).1.store.timestamp = now) := by
  refine ⟨fun now s => rfl, fun now s => rfl, fun now s => rfl,
    fun req now now2 s => rfl, fun req now now2 s => rfl,
    fun req now now2 s => rfl, fun ct now s => ⟨rfl, rfl⟩⟩

/-! ## Claim C4 -/

/-- Result of a raw-binary ingestion on the fresh a3d state, used as the C4
counterexample input. -/
def c4Result : A3DState × Nat :=
  a3d_receive (.binary "image/png" [1, 2, 3]) 2 a3dInitState

/-- C4 counterexample: a successful a3d raw-binary ingestion stores the
encoded body as the color image, but the single message it publishes
carries no `color_image_base64` field at all (only type, timestamp and body
size), so the published message does not carry the stored image fields in
their encoded form. -/
theorem claim_C4_counterexample :
    c4Result.2 = 200
    ∧ c4Result.1.store.color_image_base64
        = .str "data:image/png;base64,AQID"
    ∧ c4Result.1.sseQueue
        = [[("type", .str "new_binary_data"), ("timestamp", .num 2),
            ("size", .num 3)]]
    ∧ dget [("type", .str "new_binary_data"), ("timestamp", .num 2),
        ("size", .num 3)] "color_image_base64" = Option.none
    ∧ ¬(Option.none
        = Option.some (c4Result.1.store.color_image_base64)) := by
  refine ⟨rfl, rfl, rfl, rfl, ?_⟩
  intro h
  exact Option.noConfusion h

/-- C4 amended: every successful ingestion replaces the store and then
queues exactly one broadcast message, and that message carries the
timestamp just stored; in the electron variant (both paths) it also carries
every image field exactly as stored, in encoded form, and likewise in the
a3d JSON path (together with prompt, negative prompt and seed) — but the
a3d raw-binary path publishes only the type, the timestamp and the body
size, omitting the stored color image. -/
theorem claim_C4_theorem :
    (∀ req now s, (a3d_receive req now s).2 = 200 →
      ∃ m, (a3d_receive req now s).1.sseQueue = s.sseQueue ++ [m]
        ∧ (a3d_receive req now s).1.store.timestamp = now
        ∧ dget m "timestamp" = Option.some (.num now)
        ∧ (∀ d, req = .json d →
            dget m "color_image_base64"
              = Option.some ((a3d_receive req now s).1.store.color_image_base64)
          ∧ dget m "depth_image_base64"
              = Option.some ((a3d_receive req now s).1.store.depth_image_base64)
          ∧ dget m "openpose_image_base64"
              = Option.some
                  ((a3d_receive req now s).1.store.openpose_image_base64)
          ∧ dget m "prompt"
              = Option.some ((a3d_receive req now s).1.store.prompt)
          ∧ dget m "negative_prompt"
              = Option.some ((a3d_receive req now s).1.store.negative_prompt)
          ∧ dget m "seed"
              = Option.some ((a3d_receive req now s).1.store.seed))
        ∧ (∀ ct body, req = .binary ct body →
            dget m "color_image_base64" = Option.none
          ∧ dget m "size" = Option.some (.num body.length)
          ∧ (a3d_receive req now s).1.store.color_image_base64
              = .str (encodeBodyB64 ct body)))
    ∧ (∀ req now s, (electron_do_POST req now s).2 = 200 →
      ∃ m, (electron_do_POST req now s).1.sseQueue = s.sseQueue ++ [m]
        ∧ (electron_do_POST req now s).1.store.timestamp = now
        ∧ dget m "timestamp" = Option.some (.num now)
        ∧ dget m "image_base64"
            = Option.some ((electron_do_POST req now s).1.store.image_base64)
        ∧ dget m "color_image_base64"
            = Option.some
                ((electron_do_POST req now s).1.store.color_image_base64)
        ∧ dget m "depth_image_base64"
            = Option.some
                ((electron_do_POST req now s).1.store.depth_image_base64)
        ∧ dget m "openpose_image_base64"
            = Option.some
                ((electron_do_POST req now s).1.store.openpose_image_base64)
        ∧ dget m "payload"
            = Option.some ((electron_do_POST req now s).1.store.payload)) := by
  constructor
  · intro req now s h
    cases req with
    | jsonParseError =>
      have h500 : (500 : Nat) = 200 := h
      exact absurd h500 (by decide)
    | binary ct body =>
      refine ⟨[("type", .str "new_binary_data"), ("timestamp", .num now),
        ("size", .num (body.length : Nat))], rfl, rfl, rfl, ?_, ?_⟩
      · intro d hd
        exact absurd hd (by intro hh; exact A3DRequest.noConfusion hh)
      · intro ct2 body2 hb
        have hct : ct2 = ct := by
          cases hb; rfl
        have hbody : body2 = body := by
          cases hb; rfl
        subst hct; subst hbody
        exact ⟨rfl, rfl, rfl⟩
    | json d =>
      unfold a3d_receive at h ⊢
      dsimp only at h ⊢
      cases hd : asDict d with
      | none =>
        rw [hd] at h
        have h500 : (500 : Nat) = 200 := h
        exact absurd h500 (by decide)
      | some l =>
        rw [hd] at h
        dsimp only at h ⊢
        cases hm : asDict ((dget l "metadata").getD (.dict [])) with
        | none =>
          rw [hm] at h
          have h500 : (500 : Nat) = 200 := h
          exact absurd h500 (by decide)
        | some m =>
          refine ⟨[("type", .str "new_images"), ("timestamp", .num now),
            ("color_image_base64", dgetD l "color_image_base64"),
            ("depth_image_base64", dgetD l "depth_image_base64"),
            ("openpose_image_base64", dgetD l "openpose_image_base64"),
            ("prompt", dgetD m "prompt"),
            ("negative_prompt", dgetD m "negative_prompt"),
            ("seed", dgetD m "seed")], rfl, rfl, rfl, ?_, ?_⟩
          · intro d2 hd2
            exact ⟨rfl, rfl, rfl, rfl, rfl, rfl⟩
          · intro ct body hb
            exact absurd hb (by intro hh; exact A3DRequest.noConfusion hh)
  · intro req now s h
    cases req with
    | emptyBody =>
      have h400 : (400 : Nat) = 200 := h
      exact absurd h400 (by decide)
    | jsonParseError =>
      have h400 : (400 : Nat) = 200 := h
      exact absurd h400 (by decide)
    | json d =>
      refine ⟨_, rfl, rfl, rfl, rfl, rfl, rfl, rfl, rfl⟩
    | binary ct body =>
      refine ⟨_, rfl, rfl, rfl, rfl, rfl, rfl, rfl, rfl⟩

/-- C4 witness: the a3d conclusion at a concrete raw-binary ingestion and
the electron conclusion at a concrete JSON ingestion. -/
theorem claim_C4_witness :
    (∃ m, (a3d_receive (.binary "image/png" [1, 2, 3]) 2
            a3dInitState).1.sseQueue = a3dInitState.sseQueue ++ [m]
      ∧ (a3d_receive (.binary "image/png" [1, 2, 3]) 2
          a3dInitState).1.store.timestamp = 2
      ∧ dget m "timestamp" = Option.some (.num 2)
      ∧ (∀ d, A3DRequest.binary "image/png" [1, 2, 3] = .json d →
          dget m "color_image_base64"
            = Option.some ((a3d_receive (.binary "image/png" [1, 2, 3]) 2
                a3dInitState).1.store.color_image_base64)
        ∧ dget m "depth_image_base64"
            = Option.some ((a3d_receive (.binary "image/png" [1, 2, 3]) 2
                a3dInitState).1.store.depth_image_base64)
        ∧ dget m "openpose_image_base64"
            = Option.some ((a3d_receive (.binary "image/png" [1, 2, 3]) 2
                a3dInitState).1.store.openpose_image_base64)
        ∧ dget m "prompt"
            = Option.some ((a3d_receive (.binary "image/png" [1, 2, 3]) 2
                a3dInitState).1.store.prompt)
        ∧ dget m "negative_prompt"
            = Option.some ((a3d_receive (.binary "image/png" [1, 2, 3]) 2
                a3dInitState).1.store.negative_prompt)
        ∧ dget m "seed"
            = Option.some ((a3d_receive (.binary "image/png" [1, 2, 3]) 2
                a3dInitState).1.store.seed))
      ∧ (∀ ct body, A3DRequest.binary "image/png" [1, 2, 3]
            = .binary ct body →
          dget m "color_image_base64" = Option.none
        ∧ dget m "size" = Option.some (.num body.length)
        ∧ (a3d_receive (.binary "image/png" [1, 2, 3]) 2
            a3dInitState).1.store.color_image_base64
            = .str (encodeBodyB64 ct body))) :=
  claim_C4_theorem.1 (.binary "image/png" [1, 2, 3]) 2 a3dInitState rfl

/-! ## Claim C5 -/

/-- C5: publishing to a registry that contains a subscriber whose sink
always fails (and whose identities are distinct, as `id()` keys / handle
objects are) delivers the message to every other subscriber, and the
failing subscriber is gone from the registry when the call returns — in
both variants. The broadcast functions are total: the per-subscriber
`except` clauses of the sources mean no write failure escapes `publish`. -/
theorem claim_C5_theorem (clients : List SseClient) (msg : SseMsg)
    (b : SseClient)
    (hnd : (clients.map (fun c => c.cid)).Nodup)
    (hb : b ∈ clients) (hbroken : b.broken = true) :
    (∀ c ∈ clients, c.broken = false →
        { c with received := c.received ++ [msg] }
            ∈ a3d_broadcast clients msg
        ∧ { c with received := c.received ++ [msg] }
            ∈ electron_broadcast clients msg)
    ∧ (∀ c ∈ a3d_broadcast clients msg, ¬(c.cid = b.cid))
    ∧ (∀ c ∈ electron_broadcast clients msg, ¬(c.cid = b.cid)) := by
  have hne : clients.isEmpty = false := by
    cases clients with
    | nil => cases hb
    | cons x xs => rfl
  have hbcid : b.cid ∈ (clients.filter (fun c => c.broken)).map
      (fun c => c.cid) := by
    exact List.mem_map_of_mem _ (List.mem_filter.mpr ⟨hb, hbroken⟩)
  have hcore : ∀ c ∈ clients, c.broken = false →
      { c with received := c.received ++ [msg] }
        ∈ (clients.map (sseWrite msg)).filter
            (fun c => decide (c.cid ∉ (clients.filter
              (fun c => c.broken)).map (fun c => c.cid))) := by
    intro c hc hcb
    apply List.mem_filter.mpr
    constructor
    · have : sseWrite msg c = { c with received := c.received ++ [msg] } := by
        unfold sseWrite
        rw [hcb]
        simp
      rw [← this]
      exact List.mem_map_of_mem _ hc
    · apply decide_eq_true
      intro hmem
      rcases List.mem_map.mp hmem with ⟨d, hd, hdc⟩
      have hdl : d ∈ clients := (List.mem_filter.mp hd).1
      have hdb : d.broken = true := by
        simpa using (List.mem_filter.mp hd).2
      have hdc2 : d = c :=
        List.inj_on_of_nodup_map hnd hdl hc hdc
      rw [hdc2] at hdb
      rw [hcb] at hdb
      exact Bool.noConfusion hdb
  have habsent : ∀ c ∈ (clients.map (sseWrite msg)).filter
      (fun c => decide (c.cid ∉ (clients.filter
        (fun c => c.broken)).map (fun c => c.cid))), ¬(c.cid = b.cid) := by
    intro c hc hcb
    have hpred := (List.mem_filter.mp hc).2
    have hnotin := of_decide_eq_true hpred
    rw [hcb] at hnotin
    exact hnotin hbcid
  refine ⟨?_, ?_, ?_⟩
  · intro c hc hcb
    constructor
    · unfold a3d_broadcast
      rw [hne]
      simpa using hcore c hc hcb
    · exact hcore c hc hcb
  · intro c hc
    apply habsent c
    unfold a3d_broadcast at hc
    rw [hne] at hc
    simpa using hc
  · exact habsent

/-- Three concrete subscribers, the middle one broken. -/
def c5Clients : List SseClient :=
  [{ cid := 1, broken := false, received := [] },
   { cid := 2, broken := true, received := [] },
   { cid := 3, broken := false, received := [] }]

/-- Concrete broadcast message for the C5 witness. -/
def c5Msg : SseMsg := [("type", .str "new_images")]

/-- C5 witness: the claim conclusion at the concrete three-subscriber
registry whose middle subscriber always fails. -/
theorem claim_C5_witness :
    (∀ c ∈ c5Clients, c.broken = false →
        { c with received := c.received ++ [c5Msg] }
            ∈ a3d_broadcast c5Clients c5Msg
        ∧ { c with received := c.received ++ [c5Msg] }
            ∈ electron_broadcast c5Clients c5Msg)
    ∧ (∀ c ∈ a3d_broadcast c5Clients c5Msg,
        ¬(c.cid = SseClient.cid { cid := 2, broken := true, received := [] }))
    ∧ (∀ c ∈ electron_broadcast c5Clients c5Msg,
        ¬(c.cid
          = SseClient.cid { cid := 2, broken := true, received := [] })) :=
  claim_C5_theorem c5Clients c5Msg
    { cid := 2, broken := true, received := [] } (by decide)
    (List.Mem.tail _ (List.Mem.head _)) rfl

/-! ## Claim C6 -/

instance (r : Rows) (H W C : Nat) : Decidable (rowsShape r H W C) := by
  unfold rowsShape; infer_instance

instance : (img : PILImage) → (H W : Nat) → Decidable (img.wf H W)
  | .rgba px, H, W => inferInstanceAs (Decidable (rowsShape px H W 4))
  | .l px, H, W => inferInstanceAs (Decidable (rowsShape px H W 1))
  | .rgb px, H, W => inferInstanceAs (Decidable (rowsShape px H W 3))
  | .other r, H, W => inferInstanceAs (Decidable (rowsShape r H W 3))

/-- A per-pixel function that fixes the channel count maps a well-shaped
grid to a well-shaped grid. -/
theorem rowsShape_map (f : List Nat → List Nat) (C C' : Nat)
    (hf : ∀ p, p.length = C → (f p).length = C') (r : Rows) (H W : Nat)
    (h : rowsShape r H W C) :
    rowsShape (r.map (fun row => row.map f)) H W C' := by
  obtain ⟨hlen, hrow⟩ := h
  refine ⟨by simpa using hlen, ?_⟩
  intro row hmem
  rcases List.mem_map.mp hmem with ⟨row0, hr0, rfl⟩
  obtain ⟨hrl, hpx⟩ := hrow row0 hr0
  refine ⟨by simpa using hrl, ?_⟩
  intro p hp
  rcases List.mem_map.mp hp with ⟨p0, hp0, rfl⟩
  exact hf p0 (hpx p0 hp0)

/-- Flattening a 4-channel pixel yields 3 channels. -/
theorem flattenRGBA_length (p : List Nat) (h : p.length = 4) :
    (flattenRGBA p).length = 3 := by
  rcases p with _ | ⟨a, _ | ⟨b, _ | ⟨c, _ | ⟨d, _ | ⟨e, tl⟩⟩⟩⟩⟩ <;>
    simp_all [flattenRGBA]

/-- Replicating a 1-channel pixel yields 3 channels. -/
theorem lToRGB_length (p : List Nat) (h : p.length = 1) :
    (lToRGB p).length = 3 := by
  rcases p with _ | ⟨a, _ | ⟨b, tl⟩⟩ <;> simp_all [lToRGB]

/-- Dropping the alpha of a 4-channel pixel yields 3 channels. -/
theorem dropAlpha_length (p : List Nat) (h : p.length = 4) :
    (dropAlpha p).length = 3 := by
  simp [dropAlpha, h]

/-- The a3d mode normalization produces a 3-channel grid of the same
height and width. -/
theorem rowsShape_a3dConvertRGB (img : PILImage) (H W : Nat)
    (h : img.wf H W) : rowsShape (a3dConvertRGB img) H W 3 := by
  cases img with
  | rgba px => exact rowsShape_map flattenRGBA 4 3 flattenRGBA_length px H W h
  | l px => exact rowsShape_map lToRGB 1 3 lToRGB_length px H W h
  | rgb px => exact h
  | other r => exact h

/-- The electron mode normalization produces a 3-channel grid of the same
height and width. -/
theorem rowsShape_electronConvertRGB (img : PILImage) (H W : Nat)
    (h : img.wf H W) : rowsShape (electronConvertRGB img) H W 3 := by
  cases img with
  | rgba px => exact rowsShape_map dropAlpha 4 3 dropAlpha_length px H W h
  | l px => exact rowsShape_map lToRGB 1 3 lToRGB_length px H W h
  | rgb px => exact h
  | other r => exact h

/-- A well-shaped grid wrapped as a one-image batch has tensor shape
`1 × H × W × C`. -/
theorem tensorShape_batch1 {α : Type} (x : List (List (List α)))
    (H W C : Nat)
    (hx : x.length = H ∧ ∀ row ∈ x, row.length = W ∧
      ∀ p ∈ row, p.length = C) :
    tensorShape [x] 1 H W C := by
  refine ⟨rfl, ?_⟩
  intro img himg
  have : img = x := by simpa using himg
  rw [this]
  exact hx

/-- The scaled tensor of the a3d decoder keeps the grid's shape. -/
theorem tensorShape_toTensorQ (r : Rows) (H W : Nat)
    (h : rowsShape r H W 3) : tensorShape (toTensorQ r) 1 H W 3 := by
  apply tensorShape_batch1
  obtain ⟨hlen, hrow⟩ := h
  refine ⟨by simpa using hlen, ?_⟩
  intro row hmem
  rcases List.mem_map.mp hmem with ⟨row0, hr0, rfl⟩
  obtain ⟨hrl, hpx⟩ := hrow row0 hr0
  refine ⟨by simpa using hrl, ?_⟩
  intro p hp
  rcases List.mem_map.mp hp with ⟨p0, hp0, rfl⟩
  show (p0.map (fun v : Nat => mkRat v 255)).length = 3
  rw [List.length_map]
  exact hpx p0 hp0

/-- The `ndim == 3 and shape[2] == 3` test of the electron decoder passes
on every well-shaped 3-channel grid. -/
theorem electron_guard_of_rowsShape (r : Rows) (H W : Nat)
    (h : rowsShape r H W 3) :
    (r.all (fun row => row.all (fun p => p.length == 3))) = true := by
  apply List.all_eq_true.mpr
  intro row hrow
  apply List.all_eq_true.mpr
  intro p hp
  exact beq_iff_eq.mpr ((h.2 row hrow).2 p hp)

/-- Pipeline equation of the a3d decoder on a decodable input. -/
theorem base64_to_tensor_a3d_eq (env : DecoderEnv) (s : String)
    (bs : List Nat) (img : PILImage) (hs : ¬(s = ""))
    (hdec : env.b64decode (stripDataURI s) = Option.some bs)
    (hopen : env.imageOpen bs = Option.some img) :
    base64_to_tensor_a3d env (.str s)
      = Option.some (toTensorQ (a3dConvertRGB img)) := by
  unfold base64_to_tensor_a3d
  dsimp only
  have hfalse : (s == "") = false := by
    exact beq_eq_false_iff_ne.mpr hs
  rw [hfalse]
  simp only [Bool.false_eq_true, if_false, hdec, hopen]

/-- Pipeline equation of the electron decoder on a decodable, well-formed
input. -/
theorem base64_to_tensor_electron_eq (env : DecoderEnv) (s : String)
    (bs : List Nat) (img : PILImage) (H W : Nat) (hs : ¬(s = ""))
    (hdec : env.b64decode (stripDataURI s) = Option.some bs)
    (hopen : env.imageOpen bs = Option.some img) (hwf : img.wf H W) :
    base64_to_tensor_electron env (.str s)
      = Option.some [electronConvertRGB img] := by
  unfold base64_to_tensor_electron
  dsimp only
  have hfalse : (s == "") = false := by
    exact beq_eq_false_iff_ne.mpr hs
  rw [hfalse]
  simp only [Bool.false_eq_true, if_false, hdec, hopen]
  rw [electron_guard_of_rowsShape (electronConvertRGB img) H W
    (rowsShape_electronConvertRGB img H W hwf)]
  simp

/-- Decoder environment for the C6 counterexample: the encoded string
`"IMG"` decodes to bytes that open as a 1 × 1 `RGBA` image whose single
pixel is fully transparent red. -/
def c6Env : DecoderEnv :=
  { b64decode := fun s => if s == "IMG" then Option.some [9] else Option.none,
    imageOpen := fun bs =>
      if bs == [9] then Option.some (.rgba [[[255, 0, 0, 0]]])
      else Option.none }

/-- C6 counterexample: on a fully transparent red RGBA pixel the electron
variant's `base64_to_tensor` returns the red pixel unchanged — `convert`
discards the alpha channel — whereas flattening onto a black background
with the alpha as blend weight (what the claim asserts of the decoder, and
what the a3d variant actually does) yields a black pixel. -/
theorem claim_C6_counterexample :
    base64_to_tensor_electron c6Env (.str "IMG")
        = Option.some [[[[255, 0, 0]]]]
    ∧ ¬(([[[[255, 0, 0]]]] : TensorN)
        = [[[[muldiv255 255 0, muldiv255 0 0, muldiv255 0 0]]]])
    ∧ base64_to_tensor_a3d c6Env (.str "IMG")
        = Option.some (toTensorQ [[[muldiv255 255 0, muldiv255 0 0,
            muldiv255 0 0]]]) := by
  refine ⟨by decide, by decide, by decide⟩

/-- C6 amended: for every decodable encoded image, both decoders strip the
data-URI prefix, base64-decode, parse, normalize to three channels and
return a `1 × H × W × 3` single-image batch; a grayscale channel is
replicated in both; but only the a3d variant flattens an alpha image onto
a black background with the alpha as blend weight (PIL `paste` with the
alpha band as mask), while the electron variant discards the alpha channel
and keeps the color channels unchanged. -/
theorem claim_C6_theorem (env : DecoderEnv) (s : String) (bs : List Nat)
    (img : PILImage) (H W : Nat) (hs : ¬(s = ""))
    (hdec : env.b64decode (stripDataURI s) = Option.some bs)
    (hopen : env.imageOpen bs = Option.some img) (hwf : img.wf H W) :
    (base64_to_tensor_a3d env (.str s)
        = Option.some (toTensorQ (a3dConvertRGB img))
      ∧ tensorShape (toTensorQ (a3dConvertRGB img)) 1 H W 3)
    ∧ (base64_to_tensor_electron env (.str s)
        = Option.some [electronConvertRGB img]
      ∧ tensorShape ([electronConvertRGB img] : TensorN) 1 H W 3)
    ∧ (∀ r g b a, flattenRGBA [r, g, b, a]
        = [muldiv255 r a, muldiv255 g a, muldiv255 b a])
    ∧ (∀ px, a3dConvertRGB (.rgba px)
        = px.map (fun row => row.map flattenRGBA))
    ∧ (∀ v, lToRGB [v] = [v, v, v])
    ∧ (∀ px, a3dConvertRGB (.l px) = px.map (fun row => row.map lToRGB))
    ∧ (∀ px, electronConvertRGB (.l px) = px.map (fun row => row.map lToRGB))
    ∧ (∀ px, electronConvertRGB (.rgba px)
        = px.map (fun row => row.map dropAlpha))
    ∧ (∀ r2 g2 b2 a2, dropAlpha [r2, g2, b2, a2] = [r2, g2, b2]) := by
  refine ⟨⟨base64_to_tensor_a3d_eq env s bs img hs hdec hopen,
      tensorShape_toTensorQ (a3dConvertRGB img) H W
        (rowsShape_a3dConvertRGB img H W hwf)⟩,
    ⟨base64_to_tensor_electron_eq env s bs img H W hs hdec hopen hwf,
      tensorShape_batch1 (electronConvertRGB img) H W 3
        (rowsShape_electronConvertRGB img H W hwf)⟩,
    fun r g b a => rfl, fun px => rfl, fun v => rfl, fun px => rfl,
    fun px => rfl, fun px => rfl, fun r2 g2 b2 a2 => rfl⟩

/-- C6 witness: the amended claim at a concrete environment — a data-URI
string decoding to a 2 × 1 RGBA image — with every hypothesis discharged
concretely. -/
theorem claim_C6_witness :
    (base64_to_tensor_a3d c6Env (.str "data:image/png;base64,IMG")
        = Option.some (toTensorQ (a3dConvertRGB (.rgba [[[255, 0, 0, 0]]])))
      ∧ tensorShape (toTensorQ (a3dConvertRGB (.rgba [[[255, 0, 0, 0]]])))
          1 1 1 3)
    ∧ (base64_to_tensor_electron c6Env (.str "data:image/png;base64,IMG")
        = Option.some [electronConvertRGB (.rgba [[[255, 0, 0, 0]]])]
      ∧ tensorShape ([electronConvertRGB (.rgba [[[255, 0, 0, 0]]])]
          : TensorN) 1 1 1 3)
    ∧ (∀ r g b a, flattenRGBA [r, g, b, a]
        = [muldiv255 r a, muldiv255 g a, muldiv255 b a])
    ∧ (∀ px, a3dConvertRGB (.rgba px)
        = px.map (fun row => row.map flattenRGBA))
    ∧ (∀ v, lToRGB [v] = [v, v, v])
    ∧ (∀ px, a3dConvertRGB (.l px) = px.map (fun row => row.map lToRGB))
    ∧ (∀ px, electronConvertRGB (.l px) = px.map (fun row => row.map lToRGB))
    ∧ (∀ px, electronConvertRGB (.rgba px)
        = px.map (fun row => row.map dropAlpha))
    ∧ (∀ r2 g2 b2 a2, dropAlpha [r2, g2, b2, a2] = [r2, g2, b2]) :=
  claim_C6_theorem c6Env "data:image/png;base64,IMG" [9]
    (.rgba [[[255, 0, 0, 0]]]) 1 1 (by decide) rfl rfl (by decide)

/-! ## Claim C7 -/

/-- A constant-filled `1 × 64 × 64 × 3` nested list has that tensor
shape. -/
theorem tensorShape_constFill {α : Type} (x : α) :
    tensorShape [List.replicate 64 (List.replicate 64 (List.replicate 3 x))]
      1 64 64 3 := by
  refine ⟨rfl, ?_⟩
  intro img himg
  have h1 : img = List.replicate 64 (List.replicate 64 (List.replicate 3 x))
      := by simpa using himg
  subst h1
  refine ⟨List.length_replicate 64 _, ?_⟩
  intro row hrow
  have h2 := List.eq_of_mem_replicate hrow
  subst h2
  refine ⟨List.length_replicate 64 _, ?_⟩
  intro p hp
  have h3 := List.eq_of_mem_replicate hp
  subst h3
  exact List.length_replicate 3 x

/-- Every entry of a constant-filled nested list is that constant. -/
theorem constFill_entries {α : Type} (x : α) :
    ∀ img ∈ [List.replicate 64 (List.replicate 64 (List.replicate 3 x))],
      ∀ row ∈ img, ∀ p ∈ row, ∀ v ∈ p, v = x := by
  intro img himg row hrow p hp v hv
  have h1 : img = List.replicate 64 (List.replicate 64 (List.replicate 3 x))
      := by simpa using himg
  subst h1
  have h2 := List.eq_of_mem_replicate hrow
  subst h2
  have h3 := List.eq_of_mem_replicate hp
  subst h3
  exact List.eq_of_mem_replicate hv

/-- The `seed_value is None or seed_value == ""` test fails on every other
value. -/
theorem isNoneOrEmptyStr_eq_false (v : PyVal) (h1 : ¬(v = .none))
    (h2 : ¬(v = .str "")) : isNoneOrEmptyStr v = false := by
  cases v with
  | none => exact absurd rfl h1
  | str s =>
    unfold isNoneOrEmptyStr
    apply beq_eq_false_iff_ne.mpr
    intro hs
    apply h2
    rw [hs]
  | bytes bs => rfl
  | num q => rfl
  | bool b => rfl
  | list l => rfl
  | dict l => rfl

/-- C7: the snapshot readers substitute the fixed zero-filled
`1 × 64 × 64 × 3` placeholder (in each variant's own pixel representation)
for absent or undecodable image fields, the empty string for falsy text
fields, and 0 for an absent, empty or non-numeric seed, coercing numerics
via float-then-truncate first; a read before any ingestion yields all
placeholders, empty strings and 0. -/
theorem claim_C7_theorem (env : DecoderEnv) (st : A3DState)
    (est : ElectronState) :
    (tensorShape a3dEmptyImage 1 64 64 3
      ∧ ∀ img ∈ a3dEmptyImage, ∀ row ∈ img, ∀ p ∈ row, ∀ v ∈ p, v = 0)
    ∧ (tensorShape electronEmptyImage 1 64 64 3
      ∧ ∀ img ∈ electronEmptyImage, ∀ row ∈ img, ∀ p ∈ row, ∀ v ∈ p, v = 0)
    ∧ (base64_to_tensor_a3d env st.store.color_image_base64 = Option.none →
        (a3d_get_latest_data env st).2.color = a3dEmptyImage)
    ∧ (base64_to_tensor_a3d env st.store.depth_image_base64 = Option.none →
        (a3d_get_latest_data env st).2.depth = a3dEmptyImage)
    ∧ (base64_to_tensor_a3d env st.store.openpose_image_base64
          = Option.none →
        (a3d_get_latest_data env st).2.openpose = a3dEmptyImage)
    ∧ (st.store.prompt = .none →
        (a3d_get_latest_data env st).2.prompt = .str "")
    ∧ (st.store.negative_prompt = .none →
        (a3d_get_latest_data env st).2.negative_prompt = .str "")
    ∧ (st.store.seed = .none → (a3d_get_latest_data env st).2.seed = 0)
    ∧ (st.store.seed = .str "" → (a3d_get_latest_data env st).2.seed = 0)
    ∧ (∀ v, ¬(v = .none) → ¬(v = .str "") → pyFloat v = Option.none →
        a3d_seed_to_int v = 0)
    ∧ (∀ v q, ¬(v = .none) → ¬(v = .str "") → pyFloat v = Option.some q →
        a3d_seed_to_int v = ratTrunc q)
    ∧ a3d_seed_to_int (.str "42") = 42
    ∧ ((a3d_get_latest_data env a3dInitState).2.color = a3dEmptyImage
      ∧ (a3d_get_latest_data env a3dInitState).2.depth = a3dEmptyImage
      ∧ (a3d_get_latest_data env a3dInitState).2.openpose = a3dEmptyImage
      ∧ (a3d_get_latest_data env a3dInitState).2.prompt = .str ""
      ∧ (a3d_get_latest_data env a3dInitState).2.negative_prompt = .str ""
      ∧ (a3d_get_latest_data env a3dInitState).2.seed = 0)
    ∧ (est.serverStarted = true →
        base64_to_tensor_electron env est.store.image_base64 = Option.none →
        (electron_get_latest_data env est).2.image = electronEmptyImage)
    ∧ (est.serverStarted = true →
        base64_to_tensor_electron env est.store.color_image_base64
          = Option.none →
        (electron_get_latest_data env est).2.color = electronEmptyImage)
    ∧ ((electron_get_latest_data env (electronInitState true)).2.image
          = electronEmptyImage
      ∧ (electron_get_latest_data env (electronInitState true)).2.color
          = electronEmptyImage
      ∧ (electron_get_latest_data env (electronInitState true)).2.depth
          = electronEmptyImage
      ∧ (electron_get_latest_data env (electronInitState true)).2.openpose
          = electronEmptyImage
      ∧ (electron_get_latest_data env (electronInitState true)).2.timestamp
          = 0
      ∧ (electron_get_latest_data env
          (electronInitState true)).2.received_data = .dict []) := by
  refine ⟨⟨tensorShape_constFill 0, constFill_entries 0⟩,
    ⟨tensorShape_constFill 0, constFill_entries 0⟩,
    ?_, ?_, ?_, ?_, ?_, ?_, ?_, ?_, ?_, by decide,
    ⟨rfl, rfl, rfl, rfl, rfl, rfl⟩, ?_, ?_,
    ⟨rfl, rfl, rfl, rfl, rfl, rfl⟩⟩
  · intro h
    simp only [a3d_get_latest_data, h, Option.getD_none]
  · intro h
    simp only [a3d_get_latest_data, h, Option.getD_none]
  · intro h
    simp only [a3d_get_latest_data, h, Option.getD_none]
  · intro h
    simp only [a3d_get_latest_data, h, PyVal.truthy, Bool.false_eq_true,
      if_false]
  · intro h
    simp only [a3d_get_latest_data, h, PyVal.truthy, Bool.false_eq_true,
      if_false]
  · intro h
    simp only [a3d_get_latest_data, h]
    rfl
  · intro h
    simp only [a3d_get_latest_data, h]
    rfl
  · intro v h1 h2 h3
    unfold a3d_seed_to_int
    rw [isNoneOrEmptyStr_eq_false v h1 h2, h3]
    rfl
  · intro v q h1 h2 h3
    unfold a3d_seed_to_int
    rw [isNoneOrEmptyStr_eq_false v h1 h2, h3]
    rfl
  · intro hs h
    simp only [electron_get_latest_data, hs, h, Option.getD_none]
    rfl
  · intro hs h
    simp only [electron_get_latest_data, hs, h, Option.getD_none]
    rfl

/-- C7 witness: the claim at the all-failing decoder environment and the
fresh module states, plus the numeric-coercion conclusions at the concrete
seeds `"42"` and `"-2.5"`. -/
theorem claim_C7_witness :
    ((a3d_get_latest_data trivialDecoderEnv a3dInitState).2.color
        = a3dEmptyImage
      ∧ (a3d_get_latest_data trivialDecoderEnv a3dInitState).2.prompt
        = .str ""
      ∧ (a3d_get_latest_data trivialDecoderEnv a3dInitState).2.seed = 0)
    ∧ a3d_seed_to_int (.str "42") = 42
    ∧ a3d_seed_to_int (.str "-2.5") = ratTrunc (mkRat (-25) 10)
    ∧ (electron_get_latest_data trivialDecoderEnv
        (electronInitState true)).2.image = electronEmptyImage := by
  have h := claim_C7_theorem trivialDecoderEnv a3dInitState
    (electronInitState true)
  obtain ⟨hA, hB, hC, hD, hE, hF, hG, hH, hI, hJ, hK, hL, hM, hN, hO,
    hP⟩ := h
  refine ⟨⟨hM.1, hM.2.2.2.1, hM.2.2.2.2.2⟩, hL, ?_, hP.1⟩
  exact hK (.str "-2.5") (mkRat (-25) 10)
    (fun hh => PyVal.noConfusion hh)
    (fun hh => by injection hh with hs; exact absurd hs (by decide))
    (by decide)

/-! ## Claim C8 -/

/-- C8: on every malformed input — Python `None`, the empty string, a
non-string value (including bytes, which the `isinstance` guard rejects
before any parsing), a string whose base64 decoding fails, or decoded
bytes whose image-format parsing fails — both decoders return `None`. The
functions are total by construction, mirroring the source's guard plus
encompassing `try/except`: no exception escapes the boundary. -/
theorem claim_C8_theorem (env : DecoderEnv) :
    (base64_to_tensor_a3d env .none = Option.none
      ∧ base64_to_tensor_electron env .none = Option.none)
    ∧ (base64_to_tensor_a3d env (.str "") = Option.none
      ∧ base64_to_tensor_electron env (.str "") = Option.none)
    ∧ (∀ bs, base64_to_tensor_a3d env (.bytes bs) = Option.none
      ∧ base64_to_tensor_electron env (.bytes bs) = Option.none)
    ∧ (∀ q, base64_to_tensor_a3d env (.num q) = Option.none
      ∧ base64_to_tensor_electron env (.num q) = Option.none)
    ∧ (∀ b, base64_to_tensor_a3d env (.bool b) = Option.none
      ∧ base64_to_tensor_electron env (.bool b) = Option.none)
    ∧ (∀ l, base64_to_tensor_a3d env (.list l) = Option.none
      ∧ base64_to_tensor_electron env (.list l) = Option.none)
    ∧ (∀ d, base64_to_tensor_a3d env (.dict d) = Option.none
      ∧ base64_to_tensor_electron env (.dict d) = Option.none)
    ∧ (∀ s, ¬(s = "") → env.b64decode (stripDataURI s) = Option.none →
        base64_to_tensor_a3d env (.str s) = Option.none
      ∧ base64_to_tensor_electron env (.str s) = Option.none)
    ∧ (∀ s bs, ¬(s = "") →
        env.b64decode (stripDataURI s) = Option.some bs →
        env.imageOpen bs = Option.none →
        base64_to_tensor_a3d env (.str s) = Option.none
      ∧ base64_to_tensor_electron env (.str s) = Option.none) := by
  refine ⟨⟨rfl, rfl⟩, ⟨rfl, rfl⟩, fun bs => ⟨rfl, rfl⟩, fun q => ⟨rfl, rfl⟩,
    fun b => ⟨rfl, rfl⟩, fun l => ⟨rfl, rfl⟩, fun d => ⟨rfl, rfl⟩,
    ?_, ?_⟩
  · intro s hs hdec
    have hfalse : (s == "") = false := beq_eq_false_iff_ne.mpr hs
    constructor
    · unfold base64_to_tensor_a3d
      dsimp only
      rw [hfalse]
      simp only [Bool.false_eq_true, if_false, hdec]
    · unfold base64_to_tensor_electron
      dsimp only
      rw [hfalse]
      simp only [Bool.false_eq_true, if_false, hdec]
  · intro s bs hs hdec hopen
    have hfalse : (s == "") = false := beq_eq_false_iff_ne.mpr hs
    constructor
    · unfold base64_to_tensor_a3d
      dsimp only
      rw [hfalse]
      simp only [Bool.false_eq_true, if_false, hdec, hopen]
    · unfold base64_to_tensor_electron
      dsimp only
      rw [hfalse]
      simp only [Bool.false_eq_true, if_false, hdec, hopen]

/-- C8 witness: the claim at a concrete environment that rejects every
base64 string except `"OK"`, whose decoded bytes fail image parsing —
exercising both failure hypotheses concretely. -/
theorem claim_C8_witness :
    (base64_to_tensor_a3d
        { b64decode := fun s2 => if s2 == "OK" then Option.some [7]
            else Option.none,
          imageOpen := fun _ => Option.none } (.str "BAD") = Option.none
      ∧ base64_to_tensor_electron
        { b64decode := fun s2 => if s2 == "OK" then Option.some [7]
            else Option.none,
          imageOpen := fun _ => Option.none } (.str "BAD") = Option.none)
    ∧ (base64_to_tensor_a3d
        { b64decode := fun s2 => if s2 == "OK" then Option.some [7]
            else Option.none,
          imageOpen := fun _ => Option.none } (.str "OK") = Option.none
      ∧ base64_to_tensor_electron
        { b64decode := fun s2 => if s2 == "OK" then Option.some [7]
            else Option.none,
          imageOpen := fun _ => Option.none } (.str "OK") = Option.none) :=
  ⟨(claim_C8_theorem _).2.2.2.2.2.2.2.1 "BAD" (by decide) rfl,
   (claim_C8_theorem _).2.2.2.2.2.2.2.2 "OK" [7] (by decide) rfl rfl⟩

/-! ## Claims C9 and C10: timestamp evolution -/

/-- One a3d ingestion either keeps the stored timestamp or sets it to its
own clock reading. -/
theorem a3d_receive_timestamp_cases (req : A3DRequest) (now : Rat)
    (s : A3DState) :
    (a3d_receive req now s).1.store.timestamp = s.store.timestamp
    ∨ (a3d_receive req now s).1.store.timestamp = now := by
  cases req with
  | jsonParseError => exact Or.inl rfl
  | binary ct body => exact Or.inr rfl
  | json d =>
    unfold a3d_receive
    dsimp only
    cases hd : asDict d with
    | none => exact Or.inl rfl
    | some l =>
      dsimp only
      cases hm : asDict ((dget l "metadata").getD (.dict [])) with
      | none => exact Or.inl rfl
      | some m => exact Or.inr rfl

/-- One electron ingestion either keeps the stored timestamp or sets it to
its own clock reading. -/
theorem electron_do_POST_timestamp_cases (req : ElectronRequest) (now : Rat)
    (s : ElectronState) :
    (electron_do_POST req now s).1.store.timestamp = s.store.timestamp
    ∨ (electron_do_POST req now s).1.store.timestamp = now := by
  cases req with
  | emptyBody => exact Or.inl rfl
  | jsonParseError => exact Or.inl rfl
  | json d => exact Or.inr rfl
  | binary ct body => exact Or.inr rfl

/-- A successful a3d ingestion stamps the store with its clock reading. -/
theorem a3d_receive_success_timestamp (req : A3DRequest) (now : Rat)
    (s : A3DState) (h : (a3d_receive req now s).2 = 200) :
    (a3d_receive req now s).1.store.timestamp = now := by
  cases req with
  | jsonParseError =>
    have h500 : (500 : Nat) = 200 := h
    exact absurd h500 (by decide)
  | binary ct body => rfl
  | json d =>
    unfold a3d_receive at h ⊢
    dsimp only at h ⊢
    cases hd : asDict d with
    | none =>
      rw [hd] at h
      have h500 : (500 : Nat) = 200 := h
      exact absurd h500 (by decide)
    | some l =>
      rw [hd] at h
      dsimp only at h ⊢
      cases hm : asDict ((dget l "metadata").getD (.dict [])) with
      | none =>
        rw [hm] at h
        have h500 : (500 : Nat) = 200 := h
        exact absurd h500 (by decide)
      | some m => rfl

/-- A successful electron ingestion stamps the store with its clock
reading. -/
theorem electron_do_POST_success_timestamp (req : ElectronRequest)
    (now : Rat) (s : ElectronState)
    (h : (electron_do_POST req now s).2 = 200) :
    (electron_do_POST req now s).1.store.timestamp = now := by
  cases req with
  | emptyBody =>
    have h400 : (400 : Nat) = 200 := h
    exact absurd h400 (by decide)
  | jsonParseError =>
    have h400 : (400 : Nat) = 200 := h
    exact absurd h400 (by decide)
  | json d => rfl
  | binary ct body => rfl

/-- Running ingestions whose clock readings all dominate `t` never drops
the stored timestamp below `t` (a3d). -/
theorem a3d_run_timestamp_ge (ops : List (A3DRequest × Rat)) :
    ∀ s t, t ≤ s.store.timestamp → (∀ p ∈ ops, t ≤ p.2) →
      t ≤ (a3d_run ops s).store.timestamp := by
  induction ops with
  | nil => intro s t h _; exact h
  | cons p rest ih =>
    intro s t h hops
    have hstep : t ≤ (a3d_receive p.1 p.2 s).1.store.timestamp := by
      rcases a3d_receive_timestamp_cases p.1 p.2 s with he | he
      · rw [he]; exact h
      · rw [he]; exact hops p (List.mem_cons_self p rest)
    exact ih (a3d_receive p.1 p.2 s).1 t hstep
      (fun q hq => hops q (List.mem_cons_of_mem p hq))

/-- Running ingestions whose clock readings are all bounded by `T` keeps
the stored timestamp bounded by `T` (a3d). -/
theorem a3d_run_timestamp_le (ops : List (A3DRequest × Rat)) :
    ∀ s T, s.store.timestamp ≤ T → (∀ p ∈ ops, p.2 ≤ T) →
      (a3d_run ops s).store.timestamp ≤ T := by
  induction ops with
  | nil => intro s T h _; exact h
  | cons p rest ih =>
    intro s T h hops
    have hstep : (a3d_receive p.1 p.2 s).1.store.timestamp ≤ T := by
      rcases a3d_receive_timestamp_cases p.1 p.2 s with he | he
      · rw [he]; exact h
      · rw [he]; exact hops p (List.mem_cons_self p rest)
    exact ih (a3d_receive p.1 p.2 s).1 T hstep
      (fun q hq => hops q (List.mem_cons_of_mem p hq))

/-- Running ingestions whose clock readings all dominate `t` never drops
the stored timestamp below `t` (electron). -/
theorem electron_run_timestamp_ge (ops : List (ElectronRequest × Rat)) :
    ∀ s t, t ≤ s.store.timestamp → (∀ p ∈ ops, t ≤ p.2) →
      t ≤ (electron_run ops s).store.timestamp := by
  induction ops with
  | nil => intro s t h _; exact h
  | cons p rest ih =>
    intro s t h hops
    have hstep : t ≤ (electron_do_POST p.1 p.2 s).1.store.timestamp := by
      rcases electron_do_POST_timestamp_cases p.1 p.2 s with he | he
      · rw [he]; exact h
      · rw [he]; exact hops p (List.mem_cons_self p rest)
    exact ih (electron_do_POST p.1 p.2 s).1 t hstep
      (fun q hq => hops q (List.mem_cons_of_mem p hq))

/-- Ingestions never touch the node's `_last_processed_timestamp`. -/
theorem a3d_receive_lastProcessed (req : A3DRequest) (now : Rat)
    (s : A3DState) :
    (a3d_receive req now s).1.lastProcessed = s.lastProcessed := by
  cases req with
  | jsonParseError => rfl
  | binary ct body => rfl
  | json d =>
    unfold a3d_receive
    dsimp only
    cases hd : asDict d with
    | none => rfl
    | some l =>
      dsimp only
      cases hm : asDict ((dget l "metadata").getD (.dict [])) with
      | none => rfl
      | some m => rfl

/-- Running any ingestion sequence never touches
`_last_processed_timestamp`. -/
theorem a3d_run_lastProcessed (ops : List (A3DRequest × Rat)) :
    ∀ s, (a3d_run ops s).lastProcessed = s.lastProcessed := by
  induction ops with
  | nil => intro s; rfl
  | cons p rest ih =>
    intro s
    calc (a3d_run (p :: rest) s).lastProcessed
        = (a3d_receive p.1 p.2 s).1.lastProcessed :=
          ih (a3d_receive p.1 p.2 s).1
      _ = s.lastProcessed := a3d_receive_lastProcessed p.1 p.2 s

/-- C9: after a replace completes with timestamp `t`, every later snapshot
(over any further sequence of ingestions whose wall-clock readings are not
earlier than `t`, as `time.time()` readings of later events are) observes a
stored timestamp that is `t` or later, in both variants. -/
theorem claim_C9_theorem :
    (∀ r t s ops, (a3d_receive r t s).2 = 200 → (∀ p ∈ ops, t ≤ p.2) →
      t ≤ (a3d_run ops (a3d_receive r t s).1).store.timestamp)
    ∧ (∀ r t s ops, (electron_do_POST r t s).2 = 200 →
        (∀ p ∈ ops, t ≤ p.2) →
      t ≤ (electron_run ops (electron_do_POST r t s).1).store.timestamp) := by
  constructor
  · intro r t s ops h hops
    apply a3d_run_timestamp_ge ops _ t _ hops
    rw [a3d_receive_success_timestamp r t s h]
  · intro r t s ops h hops
    apply electron_run_timestamp_ge ops _ t _ hops
    rw [electron_do_POST_success_timestamp r t s h]

/-- C9 witness: the monotonicity conclusion after a concrete successful
ingestion at time 1 followed by a failing ingestion at time 2, in both
variants. -/
theorem claim_C9_witness :
    1 ≤ (a3d_run [(.jsonParseError, 2)]
      (a3d_receive (.binary "text/plain" [5]) 1
        a3dInitState).1).store.timestamp
    ∧ 1 ≤ (electron_run [(.emptyBody, 2)]
      (electron_do_POST (.json (.dict [])) 1
        (electronInitState true)).1).store.timestamp :=
  ⟨claim_C9_theorem.1 (.binary "text/plain" [5]) 1 a3dInitState
      [(.jsonParseError, 2)] rfl (by decide),
   claim_C9_theorem.2 (.json (.dict [])) 1 (electronInitState true)
      [(.emptyBody, 2)] rfl (by decide)⟩

/-- C10: `IS_CHANGED` returns the stored timestamp exactly when it is
strictly newer than `_last_processed_timestamp` and returns
`_last_processed_timestamp` otherwise, mutating nothing;
`get_latest_data` records the snapshot timestamp in
`_last_processed_timestamp` without touching the store; hence after a
`get_latest_data` that observed timestamp `T`, `IS_CHANGED` keeps
returning `T` across any ingestions whose clock readings do not exceed
`T`, and returns the new timestamp as soon as an ingestion stores one
strictly greater than `T`. -/
theorem claim_C10_theorem (env : DecoderEnv) (s : A3DState)
    (ops : List (A3DRequest × Rat)) :
    (∀ st : A3DState, a3d_IS_CHANGED st
        = if st.lastProcessed < st.store.timestamp then st.store.timestamp
          else st.lastProcessed)
    ∧ (a3d_get_latest_data env s).1.lastProcessed = s.store.timestamp
    ∧ (a3d_get_latest_data env s).1.store = s.store
    ∧ ((∀ p ∈ ops, p.2 ≤ s.store.timestamp) →
        a3d_IS_CHANGED (a3d_run ops (a3d_get_latest_data env s).1)
          = s.store.timestamp)
    ∧ (∀ r t, (∀ p ∈ ops, p.2 ≤ s.store.timestamp) →
        s.store.timestamp < t →
        (a3d_receive r t
          (a3d_run ops (a3d_get_latest_data env s).1)).2 = 200 →
        a3d_IS_CHANGED (a3d_receive r t
          (a3d_run ops (a3d_get_latest_data env s).1)).1 = t) := by
  refine ⟨fun st => rfl, rfl, rfl, ?_, ?_⟩
  · intro hops
    have hlp : (a3d_run ops
        (a3d_get_latest_data env s).1).lastProcessed = s.store.timestamp :=
      a3d_run_lastProcessed ops (a3d_get_latest_data env s).1
    have hts : (a3d_run ops
        (a3d_get_latest_data env s).1).store.timestamp
          ≤ s.store.timestamp :=
      a3d_run_timestamp_le ops (a3d_get_latest_data env s).1
        s.store.timestamp (le_refl _) hops
    unfold a3d_IS_CHANGED
    rw [hlp, if_neg (not_lt.mpr hts)]
  · intro r t hops hlt h200
    have hlp2 : (a3d_receive r t (a3d_run ops
        (a3d_get_latest_data env s).1)).1.lastProcessed
          = s.store.timestamp := by
      rw [a3d_receive_lastProcessed]
      exact a3d_run_lastProcessed ops (a3d_get_latest_data env s).1
    have hts2 := a3d_receive_success_timestamp r t
      (a3d_run ops (a3d_get_latest_data env s).1) h200
    unfold a3d_IS_CHANGED
    rw [hlp2, hts2, if_pos hlt]

/-- Base state for the C10 witness: a successful binary ingestion at time
3 on the fresh a3d module. -/
def c10Base : A3DState :=
  (a3d_receive (.binary "text/plain" [8]) 3 a3dInitState).1

/-- C10 witness: after `get_latest_data` observes timestamp 3, a failing
ingestion at time 1 leaves `IS_CHANGED` returning 3, and a successful
ingestion at time 4 makes it return 4. -/
theorem claim_C10_witness :
    a3d_IS_CHANGED (a3d_run [(.jsonParseError, 1)]
      (a3d_get_latest_data trivialDecoderEnv c10Base).1) = 3
    ∧ a3d_IS_CHANGED (a3d_receive (.binary "text/plain" [9]) 4
        (a3d_run [(.jsonParseError, 1)]
          (a3d_get_latest_data trivialDecoderEnv c10Base).1)).1 = 4 :=
  ⟨(claim_C10_theorem trivialDecoderEnv c10Base
      [(.jsonParseError, 1)]).2.2.2.1 (by decide),
   (claim_C10_theorem trivialDecoderEnv c10Base
      [(.jsonParseError, 1)]).2.2.2.2 (.binary "text/plain" [9]) 4
      (by decide) (by decide) rfl⟩
